import Mathlib

/-!
Verification of the phase-sequencing state machine of the Assistant-Creator
Streamlit application (`src/main.py`).

The application drives an external "assistant" through a fixed, linearly
ordered workflow.  Per assistant the UI keeps a dictionary
(`st.session_state["assistant_chat_histories"][assistant_id]`) holding

  * `chat_history`          : list of free chat messages,
  * `conversation_history`  : list of `(phase_name, content)` pairs,
  * `message_index`         : cursor into the workflow,
  * `company_name`, `selected_slides` : auxiliary text fields.

A workflow is given by two parallel lists imported from `messages.py`
(`MESSAGES`/`PHASE_NAMES` resp. `PITCH_DECK_MESSAGES`/`PITCH_DECK_PHASE_NAMES`):
a list of prompt templates and a list of phase labels.

We embed every phase-advancing and phase-replacing interaction of
`chat_section` as a pure transition on this per-assistant record.  The remote
gateway call `chat_with_assistant` returns `Optional[str]` (None on failure),
which we model by passing the gateway outcome `resp : Option String` into each
transition.  A transition reports which message, if any, was sent to the
gateway, which error (if any) the interaction raised, and the resulting state.
-/

namespace AssistantCreator

/-- Auxiliary dictionary fields (`company_name`, `selected_slides`) are read in
`main.py` with `dict.get`, which yields `None` for an absent key.  A fresh
per-assistant record stores them as the empty string while `reset_chat` rebuilds the
dictionary without those keys, so we keep them as `Option String`
(`none` = key absent). -/
def optTruthy (o : Option String) : Bool :=
  match o with
  | none => false
  | some s => !s.isEmpty

/-- Per-assistant session record
`st.session_state["assistant_chat_histories"][assistant_id]` (main.py 239-246).
`chat_history` entries are `(role, content)`, `conversation_history` entries
are `(phase_name, content)`. -/
structure CurrentChat where
  chat_history : List (String × String)
  conversation_history : List (String × String)
  message_index : Nat
  company_name : Option String
  selected_slides : Option String
deriving DecidableEq, Repr

/-- The record installed on first use of an assistant (main.py 239-246):
all lists empty, cursor 0, auxiliary fields present with the empty string. -/
def freshChat : CurrentChat :=
  { chat_history := []
    conversation_history := []
    message_index := 0
    company_name := some ""
    selected_slides := some "" }

/-- Error outcomes of one interaction: a clean in-app rejection (the
`st.error`/`st.warning` branches where no gateway call is made or the guard
fails), a gateway failure (`chat_with_assistant` returned `None`), or an
uncaught Python `IndexError` from an out-of-range list subscript. -/
inductive StepErr where
  | preconditionNotMet
  | gatewayError
  | indexError
deriving DecidableEq, Repr

/-- Result of one interaction: `sent` is the message posted to the gateway
(`none` when no remote call happened before the interaction ended), `err` the
failure if any, `state` the per-assistant record afterwards. -/
structure StepOut where
  sent : Option String
  err : Option StepErr
  state : CurrentChat
deriving DecidableEq, Repr

/-- Python `template.format(company_name=n)` for the templates of
`messages.py` (main.py line 268). -/
def formatCompanyName (template n : String) : String :=
  template.replace "\x7bcompany_name\x7d" n

/-- Python `template.format(selected_slides=s)` (main.py line 328). -/
def formatSelectedSlides (template s : String) : String :=
  template.replace "\x7bselected_slides\x7d" s

/-- The "Submit Company Name" interaction (main.py 262-277).  With a nonempty
name it stores the name, sends `messages[0]` formatted with the name, and on
success appends `(phase_names[0], response)` and sets `message_index = 1`.
Note the auxiliary field is written before the gateway call. -/
def submitCompanyNameStep (messages phase_names : List String) (name : String)
    (resp : Option String) (c : CurrentChat) : StepOut :=
  if name.isEmpty then
    { sent := none, err := some StepErr.preconditionNotMet, state := c }
  else
    let c1 : CurrentChat := { c with company_name := some name }
    if h0 : 0 < messages.length then
      let message := formatCompanyName (messages.get ⟨0, h0⟩) name
      match resp with
      | none => { sent := some message, err := some StepErr.gatewayError, state := c1 }
      | some r =>
        if hp : 0 < phase_names.length then
          { sent := some message, err := none,
            state := { c1 with
              conversation_history :=
                c1.conversation_history ++ [(phase_names.get ⟨0, hp⟩, r)]
              message_index := 1 } }
        else
          { sent := some message, err := some StepErr.indexError, state := c1 }
    else
      { sent := none, err := some StepErr.indexError, state := c }

/-- The "Next Phase" button of phase "1. Business Report Generation"
(main.py 289-300).  Guarded by `message_index < len(messages)`; on success
appends `(phase_names[message_index], response)` and increments
`message_index`; at the end of the workflow it shows
`st.error("All phases have been completed.")` without any remote call. -/
def nextPhaseStep (messages phase_names : List String)
    (resp : Option String) (c : CurrentChat) : StepOut :=
  if hm : c.message_index < messages.length then
    let message := messages.get ⟨c.message_index, hm⟩
    match resp with
    | none => { sent := some message, err := some StepErr.gatewayError, state := c }
    | some r =>
      if hp : c.message_index < phase_names.length then
        { sent := some message, err := none,
          state := { c with
            conversation_history :=
              c.conversation_history ++ [(phase_names.get ⟨c.message_index, hp⟩, r)]
            message_index := c.message_index + 1 } }
      else
        { sent := some message, err := some StepErr.indexError, state := c }
  else
    { sent := none, err := some StepErr.preconditionNotMet, state := c }

/-- The "Proceed with Selected Slides" button of phase "2. Slide Suggestion"
(main.py 327-334).  The code subscripts `messages[message_index]` with NO
range guard, so past the end of the workflow the subscript raises an uncaught
`IndexError` before any gateway call.  On success it appends
`(phase_names[message_index], response)` and increments `message_index`. -/
def proceedWithSlidesStep (messages phase_names : List String)
    (resp : Option String) (c : CurrentChat) : StepOut :=
  if hm : c.message_index < messages.length then
    let message :=
      formatSelectedSlides (messages.get ⟨c.message_index, hm⟩)
        (c.selected_slides.getD "")
    match resp with
    | none => { sent := some message, err := some StepErr.gatewayError, state := c }
    | some r =>
      if hp : c.message_index < phase_names.length then
        { sent := some message, err := none,
          state := { c with
            conversation_history :=
              c.conversation_history ++ [(phase_names.get ⟨c.message_index, hp⟩, r)]
            message_index := c.message_index + 1 } }
      else
        { sent := some message, err := some StepErr.indexError, state := c }
  else
    { sent := none, err := some StepErr.indexError, state := c }

/-- The "Draft Pitchdeck Slides" button of phase "3. Information Evaluation"
(main.py 361-374).  Guarded by `message_index < len(messages)`; on success the
label is `phase_names[min(message_index, len(phase_names) - 1)]` (clamped),
then the entry is appended and `message_index` incremented; at the end of the
workflow it shows an `st.error` without any remote call. -/
def draftSlidesStep (messages phase_names : List String)
    (resp : Option String) (c : CurrentChat) : StepOut :=
  if hm : c.message_index < messages.length then
    let message := messages.get ⟨c.message_index, hm⟩
    match resp with
    | none => { sent := some message, err := some StepErr.gatewayError, state := c }
    | some r =>
      let idx := min c.message_index (phase_names.length - 1)
      if hp : idx < phase_names.length then
        { sent := some message, err := none,
          state := { c with
            conversation_history :=
              c.conversation_history ++ [(phase_names.get ⟨idx, hp⟩, r)]
            message_index := c.message_index + 1 } }
      else
        { sent := some message, err := some StepErr.indexError, state := c }
  else
    { sent := none, err := some StepErr.preconditionNotMet, state := c }

/-- In-place replacement of entry `i` of `conversation_history` with
`(phase, response)` where `phase` is the label the entry already carries
(the pattern `current_chat["conversation_history"][i] = (phase, response)`
of main.py 320, 344, 355, 386, 398). -/
def replaceEntryAt (i : Nat) (r : String) (h : List (String × String)) :
    List (String × String) :=
  h.set i ((h.getD i ("", "")).1, r)

/-- The "Submit Additional Slides" interaction of phase "2. Slide Suggestion"
(main.py 313-323): with nonempty input it sends a message built from the
input and on success overwrites entry `i` of `conversation_history` in place,
keeping its label; with empty input it warns and does nothing. -/
def submitAdditionalSlidesStep (i : Nat) (additional_slides : String)
    (resp : Option String) (c : CurrentChat) : StepOut :=
  if additional_slides.isEmpty then
    { sent := none, err := some StepErr.preconditionNotMet, state := c }
  else
    let message :=
      "Please regenerate your list of suggested slides now including these additional slide ideas: "
        ++ additional_slides
    match resp with
    | none => { sent := some message, err := some StepErr.gatewayError, state := c }
    | some r =>
      { sent := some message, err := none,
        state := { c with
          conversation_history := replaceEntryAt i r c.conversation_history } }

/-- The "I have uploaded additional information" interaction of phase
"3. Information Evaluation" (main.py 339-345): sends a fixed message and on
success overwrites entry `i` of `conversation_history` in place. -/
def uploadInfoStep (i : Nat) (resp : Option String) (c : CurrentChat) : StepOut :=
  let message :=
    "I have just uploaded additional files, please analyze these files and regenerate your formal information gap analysis report, now reflecting the additional information you\x27ve extracted from the uploaded files."
  match resp with
  | none => { sent := some message, err := some StepErr.gatewayError, state := c }
  | some r =>
    { sent := some message, err := none,
      state := { c with
        conversation_history := replaceEntryAt i r c.conversation_history } }

/-! ### Session-level state: per-assistant map and the shared thread handle -/

/-- Overwrite the value stored at key `aid` in the per-assistant dictionary
(Python assignment of a fresh dict literal to the assistant key);
the key is assumed present by the caller (the code checks membership first),
but for totality an absent key is appended. -/
def setEntry (aid : String) (v : CurrentChat) :
    List (String × CurrentChat) → List (String × CurrentChat)
  | [] => [(aid, v)]
  | (k, w) :: rest =>
    if k = aid then (k, v) :: rest else (k, w) :: setEntry aid v rest

/-- Session-wide mutable state relevant to conversations: the per-assistant
dictionary `assistant_chat_histories` and the single session-global
`thread_id` (main.py 38-39, 120-122). -/
structure SessionState where
  assistant_chat_histories : List (String × CurrentChat)
  thread_id : Option String
deriving DecidableEq, Repr

/-- The record `reset_chat` installs for the selected assistant
(main.py 444-448): the dictionary literal has no `company_name` or
`selected_slides` keys, so those auxiliary fields are absent afterwards. -/
def resetCurrent : CurrentChat :=
  { chat_history := []
    conversation_history := []
    message_index := 0
    company_name := none
    selected_slides := none }

/-- The `reset_chat` handler (main.py 439-451): if an assistant is selected
and has an entry, its entry is replaced by `resetCurrent`; the session-global
`thread_id` is deleted unconditionally. -/
def reset_chat (selected : Option String) (s : SessionState) : SessionState :=
  let histories :=
    match selected with
    | none => s.assistant_chat_histories
    | some aid =>
      if (s.assistant_chat_histories.lookup aid).isSome then
        setEntry aid resetCurrent s.assistant_chat_histories
      else s.assistant_chat_histories
  { assistant_chat_histories := histories, thread_id := none }

/-- Which remote thread the next `chat_with_assistant` call uses
(main.py 120-122): the stored `thread_id` if present, otherwise a freshly
created thread `freshId`, which is also stored.  The first component is the
thread all messages of the call are posted to. -/
def threadForChat (s : SessionState) (freshId : String) : String × SessionState :=
  match s.thread_id with
  | some t => (t, s)
  | none => (freshId, { s with thread_id := some freshId })

/-! ### The run-completion polling loop -/

/-- Remote run status as polled from the gateway. -/
inductive RunStatus where
  | pending
  | completed
  | failed
deriving DecidableEq, Repr

/-- A run status is terminal when the remote run will make no further
progress: it has either succeeded or failed. -/
def RunStatus.isTerminal (s : RunStatus) : Prop :=
  s = RunStatus.completed ∨ s = RunStatus.failed

/-- Status sequence seen by the loop of main.py 135-136: `s0` is the status
of the just-created run, `polls n` the status returned by the `(n+1)`-st
`runs.retrieve` call. -/
def statusAfter (s0 : RunStatus) (polls : Nat → RunStatus) : Nat → RunStatus
  | 0 => s0
  | n + 1 => polls n

/-- The loop `while run.status != "completed": run = retrieve(...)`
(main.py 135-136) terminates exactly when some polled status (including the
initial one) equals `completed`; on any other status it keeps polling. -/
def pollLoopExits (s0 : RunStatus) (polls : Nat → RunStatus) : Prop :=
  ∃ n, statusAfter s0 polls n = RunStatus.completed

/-! ### Batch upload to the vector store -/

/-- Shallow embedding of `upload_files_to_vector_store` (main.py 65-92).
`outcome f` is the gateway answer for file `f`: `some receipt` on success,
`none` when `upload_and_poll` raises.  The first component is the value the
caller receives (`None` when the surrounding `try` catches an exception, the
accumulated `uploaded_files` list otherwise); the second component records
which files were actually attached remotely before the function returned
(an effect the caller never sees in the return value). -/
def upload_files_to_vector_store (outcome : String → Option String) :
    List String → Option (List String) × List String
  | [] => (some [], [])
  | f :: fs =>
    match outcome f with
    | none => (none, [])
    | some b =>
      match upload_files_to_vector_store outcome fs with
      | (none, att) => (none, f :: att)
      | (some bs, att) => (some (b :: bs), f :: att)

/-! ### Required-document precheck in `create_assistant_popup` -/

/-- The loop over `required_files` (main.py 530-541): returns the contents
appended to `files_to_upload` (found files, in order), the paths reported
with `st.error(... not found)`, and the final `required_files_found` flag. -/
def scanRequired (onDisk : String → Bool) :
    List String → List String × List String × Bool
  | [] => ([], [], true)
  | p :: ps =>
    let rest := scanRequired onDisk ps
    if onDisk p then (p :: rest.1, rest.2.1, rest.2.2)
    else (rest.1, p :: rest.2.1, false)

/-- Outcome of the attach part of `create_assistant_popup` (main.py 518-549):
which mandatory paths were reported missing, whether
`upload_files_to_vector_store` was invoked, and with which staged files. -/
structure AttachOutcome where
  missingErrors : List String
  uploadCalled : Bool
  uploaded : List String
deriving DecidableEq, Repr

/-- The staging-and-precheck logic of `create_assistant_popup`
(main.py 518-549): caller files are staged first, then each mandatory file is
staged if present on disk and reported missing otherwise; if any mandatory
file is missing the function returns before `upload_files_to_vector_store` is
reached; otherwise the staged list (if nonempty) is uploaded. -/
def attachFlow (onDisk : String → Bool) (userFiles required : List String) :
    AttachOutcome :=
  let scanned := scanRequired onDisk required
  let files_to_upload := userFiles ++ scanned.1
  if scanned.2.2 then
    if files_to_upload.isEmpty then
      { missingErrors := [], uploadCalled := false, uploaded := [] }
    else
      { missingErrors := [], uploadCalled := true, uploaded := files_to_upload }
  else
    { missingErrors := scanned.2.1, uploadCalled := false, uploaded := [] }

/-! ### Assistant selection in the sidebar -/

/-- An entry of `st.session_state["assistants"]`: remote id, display name and
the `metadata["type"]` string. -/
structure Assistant where
  id : String
  name : String
  atype : String
deriving DecidableEq, Repr

/-- The option string shown in the sidebar selectbox for one assistant
(main.py 607): `f"{type} - {name}"`. -/
def assistantOption (a : Assistant) : String :=
  a.atype ++ " - " ++ a.name

/-- Python `selected_assistant_option.split(" - ", 1)[1]` (main.py 610):
everything after the first occurrence of `" - "`. -/
def parseSelectedName (opt : String) : String :=
  String.intercalate " - " ((opt.splitOn " - ").tail)

/-- Resolution of the chosen option back to an assistant (main.py 611):
`next((a for a in assistants if a.name == selected_assistant_name), None)`,
i.e. the first assistant in the registry whose display name matches. -/
def resolveAssistant (assistants : List Assistant) (opt : String) :
    Option Assistant :=
  assistants.find? (fun a => a.name == parseSelectedName opt)

/-! ### Concrete fixtures used by witnesses and counterexamples -/

/-- A one-phase workflow driven to completion: `message_index = 1` equals the
workflow length, the single phase is recorded, a company name and a slide
selection have been entered. -/
def cDone : CurrentChat :=
  { chat_history := []
    conversation_history := [("p1", "r1")]
    message_index := 1
    company_name := some "Acme"
    selected_slides := some "All slides" }

/-! ### Theorems -/

/-- C1: for every workflow (parallel label/template lists of equal length)
and every state whose cursor is below the workflow length, each successful
phase-advancing interaction of `chat_section` ("Next Phase", "Proceed with
Selected Slides", "Draft Pitchdeck Slides") increments `message_index` by
exactly 1 and appends exactly one history entry, labelled with the phase name
at the pre-call cursor position. -/
theorem advance_appends_label_at_cursor
    (messages phase_names : List String) (c : CurrentChat) (r : String)
    (hlen : phase_names.length = messages.length)
    (h : c.message_index < messages.length) :
    ((nextPhaseStep messages phase_names (some r) c).err = none ∧
      (nextPhaseStep messages phase_names (some r) c).state.message_index
        = c.message_index + 1 ∧
      (nextPhaseStep messages phase_names (some r) c).state.conversation_history
        = c.conversation_history ++ [(phase_names.getD c.message_index "", r)]) ∧
    ((proceedWithSlidesStep messages phase_names (some r) c).err = none ∧
      (proceedWithSlidesStep messages phase_names (some r) c).state.message_index
        = c.message_index + 1 ∧
      (proceedWithSlidesStep messages phase_names (some r) c).state.conversation_history
        = c.conversation_history ++ [(phase_names.getD c.message_index "", r)]) ∧
    ((draftSlidesStep messages phase_names (some r) c).err = none ∧
      (draftSlidesStep messages phase_names (some r) c).state.message_index
        = c.message_index + 1 ∧
      (draftSlidesStep messages phase_names (some r) c).state.conversation_history
        = c.conversation_history ++ [(phase_names.getD c.message_index "", r)]) := by
  have hp : c.message_index < phase_names.length := by omega
  have hmin : min c.message_index (phase_names.length - 1) = c.message_index := by
    omega
  simp [nextPhaseStep, proceedWithSlidesStep, draftSlidesStep, h, hp, hmin,
    List.getD_eq_getElem?_getD, List.getElem?_eq_getElem hp]

/-- Witness for C1 at the two-phase workflow `["m1", "m2"]` / `["p1", "p2"]`
and the freshly created state. -/
theorem advance_appends_label_at_cursor_witness :
    (["p1", "p2"] : List String).length = (["m1", "m2"] : List String).length ∧
    freshChat.message_index < (["m1", "m2"] : List String).length ∧
    (((nextPhaseStep ["m1", "m2"] ["p1", "p2"] (some "r1") freshChat).err = none ∧
      (nextPhaseStep ["m1", "m2"] ["p1", "p2"] (some "r1") freshChat).state.message_index
        = freshChat.message_index + 1 ∧
      (nextPhaseStep ["m1", "m2"] ["p1", "p2"] (some "r1") freshChat).state.conversation_history
        = freshChat.conversation_history
            ++ [((["p1", "p2"] : List String).getD freshChat.message_index "", "r1")]) ∧
    ((proceedWithSlidesStep ["m1", "m2"] ["p1", "p2"] (some "r1") freshChat).err = none ∧
      (proceedWithSlidesStep ["m1", "m2"] ["p1", "p2"] (some "r1") freshChat).state.message_index
        = freshChat.message_index + 1 ∧
      (proceedWithSlidesStep ["m1", "m2"] ["p1", "p2"] (some "r1") freshChat).state.conversation_history
        = freshChat.conversation_history
            ++ [((["p1", "p2"] : List String).getD freshChat.message_index "", "r1")]) ∧
    ((draftSlidesStep ["m1", "m2"] ["p1", "p2"] (some "r1") freshChat).err = none ∧
      (draftSlidesStep ["m1", "m2"] ["p1", "p2"] (some "r1") freshChat).state.message_index
        = freshChat.message_index + 1 ∧
      (draftSlidesStep ["m1", "m2"] ["p1", "p2"] (some "r1") freshChat).state.conversation_history
        = freshChat.conversation_history
            ++ [((["p1", "p2"] : List String).getD freshChat.message_index "", "r1")])) :=
  ⟨rfl, by decide,
    advance_appends_label_at_cursor ["m1", "m2"] ["p1", "p2"] freshChat "r1" rfl
      (by decide)⟩

/-- C2 (failing input): at the terminal cursor (`message_index = len(messages)`)
the "Next Phase" and "Draft Pitchdeck Slides" interactions do reject cleanly
with no remote call and no state change, but "Proceed with Selected Slides"
subscripts `messages[message_index]` without a range guard and dies with an
uncaught `IndexError` — not the clean `PreconditionNotMet` rejection the
claim asserts for every advance-triggering interaction (no remote call is
made and the state is unchanged, but the session crashes instead of showing
the completion notice). -/
theorem terminal_proceed_with_slides_crashes :
    ((nextPhaseStep ["m1"] ["p1"] (some "x") cDone).err
        = some StepErr.preconditionNotMet ∧
      (nextPhaseStep ["m1"] ["p1"] (some "x") cDone).sent = none ∧
      (nextPhaseStep ["m1"] ["p1"] (some "x") cDone).state = cDone) ∧
    ((draftSlidesStep ["m1"] ["p1"] (some "x") cDone).err
        = some StepErr.preconditionNotMet ∧
      (draftSlidesStep ["m1"] ["p1"] (some "x") cDone).sent = none ∧
      (draftSlidesStep ["m1"] ["p1"] (some "x") cDone).state = cDone) ∧
    ((proceedWithSlidesStep ["m1"] ["p1"] (some "x") cDone).err
        = some StepErr.indexError ∧
      (proceedWithSlidesStep ["m1"] ["p1"] (some "x") cDone).err
        ≠ some StepErr.preconditionNotMet ∧
      (proceedWithSlidesStep ["m1"] ["p1"] (some "x") cDone).sent = none ∧
      (proceedWithSlidesStep ["m1"] ["p1"] (some "x") cDone).state = cDone) := by
  decide

/-- C3: whenever the gateway call fails (`chat_with_assistant` returns
`None`), every phase-advancing interaction leaves `message_index` and
`conversation_history` exactly as they were: no partial append, no cursor
change. -/
theorem gateway_failure_preserves_cursor_and_history
    (messages phase_names : List String) (c : CurrentChat) (name : String) :
    ((submitCompanyNameStep messages phase_names name none c).state.message_index
        = c.message_index ∧
      (submitCompanyNameStep messages phase_names name none c).state.conversation_history
        = c.conversation_history) ∧
    ((nextPhaseStep messages phase_names none c).state.message_index
        = c.message_index ∧
      (nextPhaseStep messages phase_names none c).state.conversation_history
        = c.conversation_history) ∧
    ((proceedWithSlidesStep messages phase_names none c).state.message_index
        = c.message_index ∧
      (proceedWithSlidesStep messages phase_names none c).state.conversation_history
        = c.conversation_history) ∧
    ((draftSlidesStep messages phase_names none c).state.message_index
        = c.message_index ∧
      (draftSlidesStep messages phase_names none c).state.conversation_history
        = c.conversation_history) := by
  unfold submitCompanyNameStep nextPhaseStep proceedWithSlidesStep draftSlidesStep
  repeat' split <;> simp_all

/-- Behavior of in-place replacement on the history list: length preserved,
entries other than `i` untouched, entry `i` keeps its label and gets the new
content. -/
theorem replaceEntryAt_spec (i : Nat) (r : String)
    (h : List (String × String)) (hi : i < h.length) :
    (replaceEntryAt i r h).length = h.length ∧
    (∀ j, j ≠ i → (replaceEntryAt i r h)[j]? = h[j]?) ∧
    (replaceEntryAt i r h)[i]? = some ((h.getD i ("", "")).1, r) := by
  refine ⟨List.length_set .., ?_, ?_⟩
  · intro j hj
    exact List.getElem?_set_ne (fun hij => hj hij.symm)
  · rw [replaceEntryAt, List.getElem?_set_self', List.getElem?_eq_getElem hi]
    rfl

/-- C4: a successful in-place regeneration of an already-appended phase
("Submit Additional Slides", "I have uploaded additional information") keeps
`message_index` and the history length, leaves every other history entry (and
hence the order) untouched, and changes exactly the targeted entry, whose
label is preserved and whose content becomes the returned text. -/
theorem replace_phase_changes_one_entry
    (i : Nat) (addl r : String) (c : CurrentChat)
    (hi : i < c.conversation_history.length)
    (ha : addl.isEmpty = false) :
    ((submitAdditionalSlidesStep i addl (some r) c).err = none ∧
      (submitAdditionalSlidesStep i addl (some r) c).state.message_index
        = c.message_index ∧
      (submitAdditionalSlidesStep i addl (some r) c).state.conversation_history.length
        = c.conversation_history.length ∧
      (∀ j, j ≠ i →
        (submitAdditionalSlidesStep i addl (some r) c).state.conversation_history[j]?
          = c.conversation_history[j]?) ∧
      (submitAdditionalSlidesStep i addl (some r) c).state.conversation_history[i]?
        = some ((c.conversation_history.getD i ("", "")).1, r)) ∧
    ((uploadInfoStep i (some r) c).err = none ∧
      (uploadInfoStep i (some r) c).state.message_index = c.message_index ∧
      (uploadInfoStep i (some r) c).state.conversation_history.length
        = c.conversation_history.length ∧
      (∀ j, j ≠ i →
        (uploadInfoStep i (some r) c).state.conversation_history[j]?
          = c.conversation_history[j]?) ∧
      (uploadInfoStep i (some r) c).state.conversation_history[i]?
        = some ((c.conversation_history.getD i ("", "")).1, r)) := by
  obtain ⟨hlen, hother, hself⟩ := replaceEntryAt_spec i r c.conversation_history hi
  simp [submitAdditionalSlidesStep, uploadInfoStep, ha, hlen, hother, hself]
  intro j hj
  exact hother j hj

/-- Witness for C4 on the one-entry history of `cDone`, replacing entry 0. -/
theorem replace_phase_changes_one_entry_witness :
    (0 : Nat) < cDone.conversation_history.length ∧
    ("extra" : String).isEmpty = false ∧
    (((submitAdditionalSlidesStep 0 "extra" (some "r2") cDone).err = none ∧
      (submitAdditionalSlidesStep 0 "extra" (some "r2") cDone).state.message_index
        = cDone.message_index ∧
      (submitAdditionalSlidesStep 0 "extra" (some "r2") cDone).state.conversation_history.length
        = cDone.conversation_history.length ∧
      (∀ j, j ≠ 0 →
        (submitAdditionalSlidesStep 0 "extra" (some "r2") cDone).state.conversation_history[j]?
          = cDone.conversation_history[j]?) ∧
      (submitAdditionalSlidesStep 0 "extra" (some "r2") cDone).state.conversation_history[0]?
        = some ((cDone.conversation_history.getD 0 ("", "")).1, "r2")) ∧
    ((uploadInfoStep 0 (some "r2") cDone).err = none ∧
      (uploadInfoStep 0 (some "r2") cDone).state.message_index = cDone.message_index ∧
      (uploadInfoStep 0 (some "r2") cDone).state.conversation_history.length
        = cDone.conversation_history.length ∧
      (∀ j, j ≠ 0 →
        (uploadInfoStep 0 (some "r2") cDone).state.conversation_history[j]?
          = cDone.conversation_history[j]?) ∧
      (uploadInfoStep 0 (some "r2") cDone).state.conversation_history[0]?
        = some ((cDone.conversation_history.getD 0 ("", "")).1, "r2"))) :=
  ⟨by decide, by decide,
    replace_phase_changes_one_entry 0 "extra" "r2" cDone (by decide) (by decide)⟩

/-- C5 (failing input): a run whose polled status is `failed` at every poll is
terminal throughout, yet the loop `while run.status != "completed"` of
`chat_with_assistant` never exits — the wait does not end on the terminal
status `failed`, contradicting the claim that any terminal status ends it. -/
theorem failed_run_never_exits_poll_loop :
    RunStatus.isTerminal (statusAfter RunStatus.failed (fun _ => RunStatus.failed) 0) ∧
    (∀ n, statusAfter RunStatus.failed (fun _ => RunStatus.failed) n = RunStatus.failed) ∧
    ¬ pollLoopExits RunStatus.failed (fun _ => RunStatus.failed) := by
  refine ⟨Or.inr rfl, fun n => ?_, ?_⟩
  · cases n <;> rfl
  · rintro ⟨n, hn⟩
    cases n <;> simp [statusAfter] at hn

/-- Session fixture with two assistants "A" and "B" and an established
shared thread "t0". -/
def sTwo : SessionState :=
  { assistant_chat_histories := [("A", freshChat), ("B", freshChat)]
    thread_id := some "t0" }

/-- C6 (counterexample): `thread_id` is a single session-global value shared
by every assistant.  Before any reset, assistant "B"\x27s next chat posts to
thread "t0"; after `reset_chat` is invoked with assistant "A" selected, "B"\x27s
next chat posts to a fresh thread "t1" — an operation against one assistant
changed the remote conversation handle another assistant uses, so the
claimed noninterference fails. -/
theorem reset_of_one_assistant_changes_thread_of_another :
    (threadForChat sTwo "t1").1 = "t0" ∧
    (threadForChat (reset_chat (some "A") sTwo) "t1").1 = "t1" ∧
    (threadForChat (reset_chat (some "A") sTwo) "t1").1
      ≠ (threadForChat sTwo "t1").1 := by
  decide

/-- Lookup of a different key is unchanged by `setEntry`. -/
theorem lookup_setEntry_ne (a b : String) (hab : b ≠ a) (v : CurrentChat) :
    ∀ l : List (String × CurrentChat), (setEntry a v l).lookup b = l.lookup b
  | [] => by
    have hba : (b == a) = false := by simpa using hab
    simp [setEntry, List.lookup, hba]
  | (k, w) :: rest => by
    by_cases hk : k = a
    · subst hk
      have : (b == k) = false := by simpa using hab
      simp [setEntry, List.lookup, this]
    · simp only [setEntry, if_neg hk, List.lookup]
      by_cases hbk : b = k
      · simp [hbk]
      · have : (b == k) = false := by simpa using hbk
        simp [this, lookup_setEntry_ne a b hab v rest]

/-- C6 (amended): per-assistant chat records are isolated — resetting the
conversation while assistant `a` is selected leaves every other assistant
`b`\x27s record exactly as it was — but the remote conversation handle is NOT
per-assistant: the single shared `thread_id` is cleared for the whole
session, so the next chat of ANY assistant establishes a new thread. -/
theorem reset_isolates_histories_but_clears_shared_thread
    (s : SessionState) (a b : String) (hab : b ≠ a) :
    (reset_chat (some a) s).assistant_chat_histories.lookup b
      = s.assistant_chat_histories.lookup b ∧
    (reset_chat (some a) s).thread_id = none := by
  refine ⟨?_, rfl⟩
  simp only [reset_chat]
  split
  · exact lookup_setEntry_ne a b hab resetCurrent s.assistant_chat_histories
  · rfl

/-- Witness for the amended C6 on the two-assistant fixture. -/
theorem reset_isolates_histories_witness :
    ("B" : String) ≠ "A" ∧
    ((reset_chat (some "A") sTwo).assistant_chat_histories.lookup "B"
        = sTwo.assistant_chat_histories.lookup "B" ∧
      (reset_chat (some "A") sTwo).thread_id = none) :=
  ⟨by decide,
    reset_isolates_histories_but_clears_shared_thread sTwo "A" "B" (by decide)⟩

/-- Gateway behavior where file "b" fails to upload and every other file
succeeds with a receipt. -/
def outcomeSecondFails : String → Option String :=
  fun f => if f = "b" then none else some (f ++ "-batch")

/-- Gateway behavior where every upload fails. -/
def outcomeFirstFails : String → Option String := fun _ => none

/-- C7 (counterexample): when the second file of the batch `["a", "b"]` fails,
`upload_files_to_vector_store` returns `None` to its caller even though "a"
was already attached remotely; the caller-visible value is identical to the
one for a batch whose FIRST file fails and which attached nothing.  The
partial list of already-attached documents is therefore discarded, not
surfaced with the failure as the claim asserts. -/
theorem upload_failure_discards_partial_list :
    (upload_files_to_vector_store outcomeSecondFails ["a", "b"]).1 = none ∧
    (upload_files_to_vector_store outcomeSecondFails ["a", "b"]).2 = ["a"] ∧
    (upload_files_to_vector_store outcomeFirstFails ["a", "b"]).1 = none ∧
    (upload_files_to_vector_store outcomeFirstFails ["a", "b"]).2 = [] ∧
    (upload_files_to_vector_store outcomeSecondFails ["a", "b"]).1
      = (upload_files_to_vector_store outcomeFirstFails ["a", "b"]).1 := by
  decide

/-- C7 (amended): uploads are sequential and the first failing file aborts
the rest of the batch — the files before it stay attached remotely, the
failing file and everything after it are never attached — but the caller
receives only the bare failure indicator `None`; the partial list of
already-attached documents is not returned. -/
theorem upload_aborts_and_returns_bare_failure
    (outcome : String → Option String) (pre : List String) (f : String)
    (post : List String)
    (hok : ∀ g ∈ pre, (outcome g).isSome)
    (hf : outcome f = none) :
    upload_files_to_vector_store outcome (pre ++ f :: post) = (none, pre) := by
  induction pre with
  | nil => simp [upload_files_to_vector_store, hf]
  | cons g gs ih =>
    obtain ⟨b, hb⟩ := Option.isSome_iff_exists.mp (hok g (by simp))
    have hrest := ih (fun x hx => hok x (by simp [hx]))
    simp [upload_files_to_vector_store, hb, hrest]

/-- Witness for the amended C7: batch `["a", "b"]` with "a" succeeding and
"b" failing returns `(none, ["a"])`. -/
theorem upload_aborts_witness :
    (∀ g ∈ (["a"] : List String), (outcomeSecondFails g).isSome) ∧
    outcomeSecondFails "b" = none ∧
    upload_files_to_vector_store outcomeSecondFails (["a"] ++ "b" :: [])
      = (none, ["a"]) :=
  ⟨by decide, by decide,
    upload_aborts_and_returns_bare_failure outcomeSecondFails ["a"] "b" []
      (by decide) (by decide)⟩

/-- Scanning a required-file list containing a path missing from disk yields
`required_files_found = False` and reports that path. -/
theorem scanRequired_flags_missing (onDisk : String → Bool) (p : String) :
    ∀ required : List String, p ∈ required → onDisk p = false →
      (scanRequired onDisk required).2.2 = false ∧
      p ∈ (scanRequired onDisk required).2.1
  | [], hp, _ => absurd hp (List.not_mem_nil p)
  | q :: qs, hp, hmiss => by
    rcases List.mem_cons.mp hp with hq | hq
    · subst hq
      simp [scanRequired, hmiss]
    · by_cases hdq : onDisk q
      · have hrec := scanRequired_flags_missing onDisk p qs hq hmiss
        simp [scanRequired, hdq, hrec.1, hrec.2]
      · have hrec := scanRequired_flags_missing onDisk p qs hq hmiss
        simp [scanRequired, hdq, hrec.2]

/-- C8: whenever the mandatory-document list contains a path missing from
local disk, the attach part of `create_assistant_popup` is abandoned before
`upload_files_to_vector_store` is reached — no document, mandatory or
caller-provided, is uploaded — and the missing path is among the reported
`not found` errors. -/
theorem missing_required_document_blocks_all_uploads
    (onDisk : String → Bool) (userFiles required : List String)
    (p : String) (hp : p ∈ required) (hmiss : onDisk p = false) :
    (attachFlow onDisk userFiles required).uploadCalled = false ∧
    (attachFlow onDisk userFiles required).uploaded = [] ∧
    p ∈ (attachFlow onDisk userFiles required).missingErrors := by
  obtain ⟨hflag, hmem⟩ := scanRequired_flags_missing onDisk p required hp hmiss
  simp [attachFlow, hflag, hmem]

/-- Disk contents for the C8 witness: only `required_files/ok.pdf` exists. -/
def demoOnDisk : String → Bool := fun p => p == "required_files/ok.pdf"

/-- Witness for C8: one mandatory file present, one absent — the upload is
never invoked and the absent path is reported. -/
theorem missing_required_document_witness :
    ("required_files/gone.pdf" : String)
        ∈ ["required_files/ok.pdf", "required_files/gone.pdf"] ∧
    demoOnDisk "required_files/gone.pdf" = false ∧
    ((attachFlow demoOnDisk ["user.pdf"]
        ["required_files/ok.pdf", "required_files/gone.pdf"]).uploadCalled = false ∧
      (attachFlow demoOnDisk ["user.pdf"]
        ["required_files/ok.pdf", "required_files/gone.pdf"]).uploaded = [] ∧
      ("required_files/gone.pdf" : String)
        ∈ (attachFlow demoOnDisk ["user.pdf"]
            ["required_files/ok.pdf", "required_files/gone.pdf"]).missingErrors) :=
  ⟨by decide, by decide,
    missing_required_document_blocks_all_uploads demoOnDisk ["user.pdf"]
      ["required_files/ok.pdf", "required_files/gone.pdf"]
      "required_files/gone.pdf" (by decide) (by decide)⟩

/-- Observable content of a per-assistant record: every read the code
performs goes through these projections — the auxiliary fields are only ever
read with `dict.get`, under which an absent key (`None`) and the fresh value
the empty string behave identically. -/
def obs (c : CurrentChat) :
    List (String × String) × List (String × String) × Nat × String × String :=
  (c.chat_history, c.conversation_history, c.message_index,
    c.company_name.getD "", c.selected_slides.getD "")

/-- Two interaction results are observationally equal: same message sent,
same error, observationally equal states. -/
def stepEq (o o' : StepOut) : Prop :=
  o.sent = o'.sent ∧ o.err = o'.err ∧ obs o.state = obs o'.state

/-- Lookup of the updated key after `setEntry` yields the new value when the
key was present. -/
theorem lookup_setEntry_self (a : String) (v : CurrentChat) :
    ∀ l : List (String × CurrentChat), (l.lookup a).isSome →
      (setEntry a v l).lookup a = some v
  | [], h => by simp [List.lookup] at h
  | (k, w) :: rest, h => by
    by_cases hk : k = a
    · subst hk
      simp [setEntry, List.lookup]
    · have hka : ¬a = k := fun e => hk e.symm
      have hak : (a == k) = false := by simpa using hka
      have htail : (rest.lookup a).isSome := by
        simpa [List.lookup, hak] using h
      simp [setEntry, hk, List.lookup, hak,
        lookup_setEntry_self a v rest htail]

/-- C9: `reset_chat` with assistant `aid` selected replaces `aid`\x27s record by
the empty one (cursor 0, empty histories, auxiliary keys absent), deletes the
session-global `thread_id` (so the gateway creates a new thread on the next
interaction), and the reset record is observationally identical to a freshly
created one: every phase-advancing interaction sends the same message,
reports the same error and produces observationally equal states on the reset
record and on `freshChat`. -/
theorem reset_restores_initial_behavior
    (s : SessionState) (aid : String) (c : CurrentChat)
    (hc : s.assistant_chat_histories.lookup aid = some c) :
    (reset_chat (some aid) s).assistant_chat_histories.lookup aid
      = some resetCurrent ∧
    resetCurrent.message_index = 0 ∧
    resetCurrent.conversation_history = [] ∧
    resetCurrent.chat_history = [] ∧
    resetCurrent.company_name = none ∧
    resetCurrent.selected_slides = none ∧
    (reset_chat (some aid) s).thread_id = none ∧
    obs resetCurrent = obs freshChat ∧
    (∀ m p n resp, stepEq (submitCompanyNameStep m p n resp resetCurrent)
      (submitCompanyNameStep m p n resp freshChat)) ∧
    (∀ m p resp, stepEq (nextPhaseStep m p resp resetCurrent)
      (nextPhaseStep m p resp freshChat)) ∧
    (∀ m p resp, stepEq (proceedWithSlidesStep m p resp resetCurrent)
      (proceedWithSlidesStep m p resp freshChat)) ∧
    (∀ m p resp, stepEq (draftSlidesStep m p resp resetCurrent)
      (draftSlidesStep m p resp freshChat)) := by
  have hsome : (s.assistant_chat_histories.lookup aid).isSome := by simp [hc]
  refine ⟨?_, rfl, rfl, rfl, rfl, rfl, rfl, rfl, ?_, ?_, ?_, ?_⟩
  · simp only [reset_chat, if_pos hsome]
    exact lookup_setEntry_self aid resetCurrent s.assistant_chat_histories hsome
  · intro m p n resp
    cases resp <;>
      by_cases h0 : 0 < m.length <;>
      by_cases hp0 : 0 < p.length <;>
      by_cases hn : n.isEmpty <;>
      simp [submitCompanyNameStep, stepEq, obs, resetCurrent, freshChat, h0,
        hp0, hn]
  · intro m p resp
    cases resp <;>
      by_cases h0 : 0 < m.length <;>
      by_cases hp0 : 0 < p.length <;>
      simp [nextPhaseStep, stepEq, obs, resetCurrent, freshChat, h0, hp0]
  · intro m p resp
    cases resp <;>
      by_cases h0 : 0 < m.length <;>
      by_cases hp0 : 0 < p.length <;>
      simp [proceedWithSlidesStep, stepEq, obs, resetCurrent, freshChat, h0,
        hp0]
  · intro m p resp
    cases resp <;>
      by_cases h0 : 0 < m.length <;>
      by_cases hp0 : 0 < p.length <;>
      simp [draftSlidesStep, stepEq, obs, resetCurrent, freshChat, h0, hp0]

/-- Session fixture with one assistant "A" carrying a completed workflow and
an established thread. -/
def sOne : SessionState :=
  { assistant_chat_histories := [("A", cDone)], thread_id := some "t0" }

/-- Witness for C9 on the completed session `sOne`. -/
theorem reset_restores_initial_behavior_witness :
    sOne.assistant_chat_histories.lookup "A" = some cDone ∧
    ((reset_chat (some "A") sOne).assistant_chat_histories.lookup "A"
        = some resetCurrent ∧
      resetCurrent.message_index = 0 ∧
      resetCurrent.conversation_history = [] ∧
      resetCurrent.chat_history = [] ∧
      resetCurrent.company_name = none ∧
      resetCurrent.selected_slides = none ∧
      (reset_chat (some "A") sOne).thread_id = none ∧
      obs resetCurrent = obs freshChat ∧
      (∀ m p n resp, stepEq (submitCompanyNameStep m p n resp resetCurrent)
        (submitCompanyNameStep m p n resp freshChat)) ∧
      (∀ m p resp, stepEq (nextPhaseStep m p resp resetCurrent)
        (nextPhaseStep m p resp freshChat)) ∧
      (∀ m p resp, stepEq (proceedWithSlidesStep m p resp resetCurrent)
        (proceedWithSlidesStep m p resp freshChat)) ∧
      (∀ m p resp, stepEq (draftSlidesStep m p resp resetCurrent)
        (draftSlidesStep m p resp freshChat))) :=
  ⟨by decide, reset_restores_initial_behavior sOne "A" cDone (by decide)⟩

/-- Characterization of `List.find?`: a found element sits at an index all of
whose predecessors fail the predicate. -/
theorem find?_first {α : Type} (p : α → Bool) :
    ∀ (l : List α) (x : α), l.find? p = some x →
      ∃ k, ∃ hk : k < l.length, l.get ⟨k, hk⟩ = x ∧ p x = true ∧
        ∀ m (hm : m < l.length), m < k → p (l.get ⟨m, hm⟩) = false
  | [], x, h => by simp [List.find?] at h
  | a :: as, x, h => by
    by_cases hpa : p a
    · have hax : a = x := by
        simpa [List.find?_cons_of_pos _ hpa] using h
      exact ⟨0, by simp, by simpa using hax, hax ▸ hpa,
        fun m hm hmk => absurd hmk (Nat.not_lt_zero m)⟩
    · have hpaf : p a = false := by simpa using hpa
      have h' : as.find? p = some x := by
        simpa [List.find?_cons_of_neg _ hpa] using h
      obtain ⟨k, hk, hget, hpx, hfirst⟩ := find?_first p as x h'
      refine ⟨k + 1, by simpa using Nat.succ_lt_succ hk, by simpa using hget,
        hpx, ?_⟩
      intro m hm hmk
      cases m with
      | zero => simpa using hpaf
      | succ m' =>
        have hm' : m' < as.length := by simpa using Nat.lt_of_succ_lt_succ hm
        simpa using hfirst m' hm' (Nat.lt_of_succ_lt_succ hmk)

/-- C10: sidebar selection resolves the chosen option by display name via
`next(a for a in assistants if a.name == selected_assistant_name)`, so in a
registry holding two assistants with the same name (at positions `i < j`,
the later one with an id no earlier entry has), no option string can ever
bind the session to the later assistant: any matching option already matches
the earlier one first. -/
theorem duplicate_name_binds_to_first_match
    (assistants : List Assistant) (i j : Nat)
    (hi : i < assistants.length) (hj : j < assistants.length) (hij : i < j)
    (hname : (assistants.get ⟨i, hi⟩).name = (assistants.get ⟨j, hj⟩).name)
    (hid : ∀ k (hk : k < assistants.length), k < j →
      (assistants.get ⟨k, hk⟩).id ≠ (assistants.get ⟨j, hj⟩).id) :
    ∀ opt, resolveAssistant assistants opt
      ≠ some (assistants.get ⟨j, hj⟩) := by
  intro opt h
  rw [resolveAssistant] at h
  obtain ⟨k, hk, hget, hpx, hfirst⟩ :=
    find?_first (fun a => a.name == parseSelectedName opt) assistants _ h
  have hpi : ((assistants.get ⟨i, hi⟩).name == parseSelectedName opt) = true := by
    rw [hname]
    exact hpx
  have hki : k ≤ i := by
    by_contra hlt
    have hfalse := hfirst i hi (by omega)
    rw [hpi] at hfalse
    exact Bool.noConfusion hfalse
  exact hid k hk (by omega) (congrArg Assistant.id hget)

/-- Registry fixture: two assistants sharing the display name "Acme". -/
def demoAssistants : List Assistant :=
  [⟨"asst_1", "Acme", "Grant Assistant"⟩,
    ⟨"asst_2", "Acme", "Pitch Deck Creator"⟩]

/-- Witness for C10: even the option string generated for the second "Acme"
assistant cannot resolve to it. -/
theorem duplicate_name_binds_to_first_match_witness :
    (demoAssistants.get ⟨0, by decide⟩).name
      = (demoAssistants.get ⟨1, by decide⟩).name ∧
    resolveAssistant demoAssistants "Pitch Deck Creator - Acme"
      ≠ some (demoAssistants.get ⟨1, by decide⟩) :=
  ⟨by decide,
    duplicate_name_binds_to_first_match demoAssistants 0 1 (by decide)
      (by decide) (by decide) (by decide) (by decide)
      "Pitch Deck Creator - Acme"⟩

end AssistantCreator
